import Mathlib

/-!
Verification of the colour-record service and its synthetic workflow driver.

The definitions below are a shallow embedding of the three request handlers
(`src/lambda/create-data/index.ts`, `src/lambda/delete-data/index.ts`,
`src/lambda/read-data/index.ts`) and of the Step Functions state machine
declared in `src/stacks/step-function.ts`.  Handlers are pure functions from
their event plus the current table state to an output record that carries the
returned payload or thrown error together with the observable side effects
(emitted metrics, logged correlation key, new table state).
-/

namespace LambdaPowertoolsDemo

/-- A DynamoDB record as written by the write handler
(`ItemId`, `UpdateTime`, `CorrelationId`, `Colour`, `ExpiryTime`).
Timestamps are modelled as natural numbers (epoch seconds). -/
structure ItemAttributes where
  ItemId : String
  UpdateTime : Nat
  CorrelationId : String
  Colour : String
  ExpiryTime : Nat
deriving Repr, DecidableEq

/-- The record collection backing the service (one DynamoDB table,
keyed by `ItemId`). -/
abbrev Table := List ItemAttributes

/-- Whether the table holds a record with the given key. -/
def containsId (t : Table) (id : String) : Bool :=
  t.any (fun r => r.ItemId == id)

/-- Error names raised by the store client, as inspected by the handlers
(`error.name` in the catch blocks). -/
inductive DbErrorName where
  | conditionalCheckFailed
  | resourceNotFound
  | other (msg : String)
deriving Repr, DecidableEq

/-- The message carried by a store error when the handler rethrows it. -/
def dbErrMessage : DbErrorName → String
  | .conditionalCheckFailed => "ConditionalCheckFailedException"
  | .resourceNotFound => "ResourceNotFoundException"
  | .other m => m

/-- Conditional put, as used by the write handler: the put carries
`ConditionExpression: attribute_not_exists(ItemId)` on create and
`attribute_exists(ItemId)` on update, and the store rejects a violated
condition with `ConditionalCheckFailedException` (the store's atomic
exists/not-exists precondition on writes). -/
def dbPut (t : Table) (item : ItemAttributes) (requireAbsent : Bool) :
    Except DbErrorName Table :=
  if requireAbsent then
    if containsId t item.ItemId then .error .conditionalCheckFailed
    else .ok (t ++ [item])
  else
    if containsId t item.ItemId then
      .ok (t.map (fun r => if r.ItemId == item.ItemId then item else r))
    else .error .conditionalCheckFailed

/-- Modelled from the spec: the external key-value store's delete primitive.
The repository only calls `docClient.delete` and maps the store's
`ResourceNotFoundException` to a client error; the store itself is an
external collaborator, and the spec states that the store reports the id
absent at delete time ("if the store reports the id absent at delete time,
that is a client error"), so deleting an absent id reports not-found here. -/
def dbDelete (t : Table) (id : String) : Except DbErrorName Table :=
  if containsId t id then .ok (t.filter (fun r => r.ItemId != id))
  else .error .resourceNotFound

/-- JavaScript truthiness of an optional boolean (`undefined` is falsy). -/
def truthy (b : Option Bool) : Bool := b.getD false

/-- JavaScript truthiness of an optional string (`undefined` and `''`
are falsy). -/
def strTruthy : Option String → Bool
  | none => false
  | some s => s != ""

/-- The structured error a handler throws: the status code and message the
handler chose, stamped with the identifier of the originating request. -/
structure ErrInfo where
  statusCode : Nat
  message : String
  requestId : String
deriving Repr, DecidableEq

/-- The handlers' final catch block serializes the whole error into the
single thrown message string:
`err.message = JSON.stringify(\x7b statusCode, message, requestId \x7d)`. -/
def packError (e : ErrInfo) : String :=
  "\x7b\"statusCode\":" ++ toString e.statusCode ++
    ",\"message\":\"" ++ e.message ++
    "\",\"requestId\":\"" ++ e.requestId ++ "\"\x7d"

/-- What the caller of a handler observes: either the returned payload or a
thrown error carrying one packed string. -/
inductive CallerView (α : Type) where
  | payload (a : α)
  | errorString (s : String)
deriving Repr, DecidableEq

/-- Surface a handler result to the caller, packing any error into the
single serialized string. -/
def callerView {α : Type} : Except ErrInfo α → CallerView α
  | .ok a => .payload a
  | .error e => .errorString (packError e)

/-- Request parameters of the write handler (create and update). -/
structure WriteParams where
  itemId : Option String
  isRed : Option Bool
  isBlue : Option Bool
  surpriseMe : Option Bool
  correlationId : Option String
  throwErrorFlag : Option Bool
deriving Repr, DecidableEq

/-- Successful payload of the write handler. -/
structure FunctionResult where
  success : Bool
  requestId : String
  itemId : String
  correlationId : String
  colour : String
deriving Repr, DecidableEq

/-- Full observable outcome of one write-handler invocation: the result or
thrown error, the table afterwards, the colour classification count emitted
(if reached), the WARNING / ERROR metric counts, and the correlation key
appended to logs, traces and metric metadata. -/
structure WriteOutput where
  result : Except ErrInfo FunctionResult
  table : Table
  colourMetric : Option String
  warnCount : Nat
  errCount : Nat
  loggedCorrelationId : String
deriving Repr

/-- The write handler's catch block: pack the status and message with the
request id, count a WARNING metric for status 400 and an ERROR metric
otherwise, and leave the table unchanged. -/
def mkFailWrite (table : Table) (colourMetric : Option String)
    (loggedCorrelationId requestId : String) (statusCode : Nat)
    (message : String) : WriteOutput :=
  ⟨.error ⟨statusCode, message, requestId⟩, table, colourMetric,
    if statusCode == 400 then 1 else 0,
    if statusCode == 400 then 0 else 1,
    loggedCorrelationId⟩

/-- The write handler (`create-data/index.ts`, serving both POST = create
and PUT = update).  `randThrow`, `randRed` and `randBlue` are the outcomes
of the three `Math.random()` draws consulted when `surpriseMe` is set;
`now` is the current time and `logExpiry` the retention window in days. -/
def lambdaHandlerWrite (tableName : Option String)
    (requestId httpMethod : String) (params : WriteParams)
    (randThrow randRed randBlue : Bool) (table : Table)
    (now logExpiry : Nat) : WriteOutput :=
  let correlationId := params.correlationId.getD requestId
  if tableName.isNone then
    mkFailWrite table none correlationId requestId 500
      "Missing required env variables"
  else
    let throwErr :=
      if truthy params.surpriseMe then randThrow else truthy params.throwErrorFlag
    if throwErr then
      mkFailWrite table none correlationId requestId 500
        "You asked me to throw an error"
    else if !(httpMethod == "POST" || httpMethod == "PUT") then
      mkFailWrite table none correlationId requestId 500 "Invalid method"
    else
      let createRecord := httpMethod == "POST"
      if !createRecord && !strTruthy params.itemId then
        mkFailWrite table none correlationId requestId 400
          "itemId is required for an update"
      else if createRecord && strTruthy params.itemId then
        mkFailWrite table none correlationId requestId 400
          "Do not specify itemId when creating a new item"
      else
        let itemId :=
          if strTruthy params.itemId then params.itemId.getD "" else requestId
        let isRed :=
          if truthy params.surpriseMe then randRed else truthy params.isRed
        let isBlue :=
          if truthy params.surpriseMe then randBlue else truthy params.isBlue
        if !isRed && !isBlue then
          mkFailWrite table (some "BLACK") correlationId requestId 400
            "Missing colour choice"
        else if isRed && isBlue then
          mkFailWrite table (some "PURPLE") correlationId requestId 400
            "Invalid colour choices"
        else
          let colour := if isRed then "RED" else "BLUE"
          let item : ItemAttributes :=
            ⟨itemId, now, correlationId, colour, now + logExpiry * 86400⟩
          match dbPut table item createRecord with
          | .error e =>
            if !createRecord &&
                (e == .resourceNotFound || e == .conditionalCheckFailed) then
              mkFailWrite table (some colour) correlationId requestId 400
                (itemId ++ " does not exist")
            else if e == .conditionalCheckFailed then
              mkFailWrite table (some colour) correlationId requestId 400
                (itemId ++ " already exists")
            else
              mkFailWrite table (some colour) correlationId requestId 500
                (dbErrMessage e)
          | .ok t2 =>
            ⟨.ok ⟨true, requestId, itemId, correlationId, colour⟩, t2,
              some colour, 0, 0, correlationId⟩

/-- Request parameters of the delete handler. -/
structure DeleteParams where
  itemId : Option String
  correlationId : Option String
  throwErrorFlag : Option Bool
deriving Repr, DecidableEq

/-- Successful payload of the delete handler. -/
structure DeleteResult where
  success : Bool
  requestId : String
  correlationId : String
deriving Repr, DecidableEq

/-- Full observable outcome of one delete-handler invocation. -/
structure DeleteOutput where
  result : Except ErrInfo DeleteResult
  table : Table
  warnCount : Nat
  errCount : Nat
  loggedCorrelationId : String
deriving Repr

/-- The delete handler's catch block. -/
def mkFailDelete (table : Table) (loggedCorrelationId requestId : String)
    (statusCode : Nat) (message : String) : DeleteOutput :=
  ⟨.error ⟨statusCode, message, requestId⟩, table,
    if statusCode == 400 then 1 else 0,
    if statusCode == 400 then 0 else 1,
    loggedCorrelationId⟩

/-- The delete handler (`delete-data/index.ts`). -/
def lambdaHandlerDelete (tableName : Option String)
    (requestId httpMethod : String) (params : DeleteParams)
    (table : Table) : DeleteOutput :=
  let correlationId := params.correlationId.getD requestId
  if tableName.isNone then
    mkFailDelete table correlationId requestId 500
      "Missing required env variables"
  else if truthy params.throwErrorFlag then
    mkFailDelete table correlationId requestId 500
      "You asked me to throw an error"
  else if !(httpMethod == "DELETE") then
    mkFailDelete table correlationId requestId 500 "Invalid method"
  else if !strTruthy params.itemId then
    mkFailDelete table correlationId requestId 400 "itemId is required"
  else
    let itemId := params.itemId.getD ""
    match dbDelete table itemId with
    | .error .resourceNotFound =>
      mkFailDelete table correlationId requestId 400
        (itemId ++ " does not exist")
    | .error e =>
      mkFailDelete table correlationId requestId 500 (dbErrMessage e)
    | .ok t2 =>
      ⟨.ok ⟨true, requestId, correlationId⟩, t2, 0, 0, correlationId⟩

/-- Request parameters of the read handler. -/
structure ReadParams where
  itemId : Option String
  correlationId : Option String
  throwErrorFlag : Option Bool
deriving Repr, DecidableEq

/-- Payload data of a successful read: the count and the records. -/
structure ReadData where
  count : Nat
  items : List ItemAttributes
deriving Repr, DecidableEq

/-- Successful payload of the read handler. -/
structure ReadResult where
  success : Bool
  requestId : String
  correlationId : String
  data : ReadData
deriving Repr, DecidableEq

/-- Full observable outcome of one read-handler invocation.
`taggedCorrelationId` is the correlation key appended to logs, traces and
metric metadata, which the read handler sets only when the caller
supplied a truthy `correlationId`. -/
structure ReadOutput where
  result : Except ErrInfo ReadResult
  warnCount : Nat
  errCount : Nat
  taggedCorrelationId : Option String
deriving Repr

/-- The read handler's catch block. -/
def mkFailRead (taggedCorrelationId : Option String) (requestId : String)
    (statusCode : Nat) (message : String) : ReadOutput :=
  ⟨.error ⟨statusCode, message, requestId⟩,
    if statusCode == 400 then 1 else 0,
    if statusCode == 400 then 0 else 1,
    taggedCorrelationId⟩

/-- The read handler (`read-data/index.ts`).  A scan fetches the whole
table; a query on the `CorrelationId` index fetches the records whose
`CorrelationId` matches. -/
def lambdaHandlerRead (tableName : Option String) (requestId : String)
    (params : ReadParams) (table : Table) : ReadOutput :=
  let tagged :=
    if strTruthy params.correlationId then
      some (params.correlationId.getD "")
    else none
  if tableName.isNone then
    mkFailRead tagged requestId 500 "Missing required env variables"
  else if truthy params.throwErrorFlag then
    mkFailRead tagged requestId 500 "You asked me to throw an error"
  else
    let allItems :=
      if !strTruthy params.correlationId then table
      else table.filter
        (fun r => r.CorrelationId == params.correlationId.getD "")
    if allItems.isEmpty then
      mkFailRead tagged requestId 400 "No items found"
    else
      let items :=
        if strTruthy params.itemId then
          allItems.filter (fun r => r.ItemId == params.itemId.getD "")
        else allItems
      ⟨.ok ⟨true, requestId, params.correlationId.getD "",
        ⟨items.length, items⟩⟩, 0, 0, tagged⟩

/-! ## The Step Functions workflow (`src/stacks/step-function.ts`)

The CDK code declares a state-machine graph.  Each API task has a success
successor (`next`) and a catch successor (`addCatch`, catching all errors);
`Pass`, `Choice`, `Succeed` and `Fail` states are modelled directly in the
step function below. -/

/-- States of the workflow state machine. -/
inductive SfnState where
  | startPass
  | createItem
  | updateItem
  | deleteItem
  | reduceCount
  | countCheck
  | getItems
  | succeeded
  | failed
deriving Repr, DecidableEq

/-- Outcome of one API task call as seen by the state machine:
either the call returned, or it errored and the task's catch fires. -/
inductive CallResult where
  | ok
  | err
deriving Repr, DecidableEq

/-- An API task's two successors in the declared graph. -/
structure TaskDef where
  onOk : SfnState
  onCatch : SfnState
deriving Repr, DecidableEq

/-- `CreateItem`: `.addCatch(reduceCount).next(updateItem)`. -/
def createItemTask : TaskDef := ⟨.updateItem, .reduceCount⟩

/-- `UpdateItem`: `.addCatch(deleteItem).next(reduceCount)`. -/
def updateItemTask : TaskDef := ⟨.reduceCount, .deleteItem⟩

/-- `DeleteItem`: `.addCatch(reduceCount).next(reduceCount)`. -/
def deleteItemTask : TaskDef := ⟨.reduceCount, .reduceCount⟩

/-- `GetItems`: `.addCatch(failed).next(success)`. -/
def getItemsTask : TaskDef := ⟨.succeeded, .failed⟩

/-- Successor of a task for a given call outcome. -/
def taskNext (t : TaskDef) : CallResult → SfnState
  | .ok => t.onOk
  | .err => t.onCatch

/-- The document flowing through the machine: the fields set by the
`StartPass` state and updated by `ReduceCount` and `CreateItem`. -/
structure SfnData where
  total : Int
  remaining : Int
  itemId : String
  correlationId : String
deriving Repr, DecidableEq

/-- The execution input supplied by the external trigger.  The spec
describes an optional iteration count; the machine's `StartPass` state is
a `Pass` whose `parameters` reference only `$$.Execution.Name` and whose
`resultPath` is `$`, replacing the whole document. -/
structure StartInput where
  iterationCount : Option Int
deriving Repr, DecidableEq

/-- The `StartPass` state: sets `total = 20`, `count.remaining = 20`,
`result.itemId = ''` and `correlationId = $$.Execution.Name`, replacing
the incoming document entirely. -/
def startPassParams (inp : StartInput) (executionName : String) : SfnData :=
  ⟨20, 20, "", executionName⟩

/-- A configuration of the running machine: current state, current
document, the original trigger input, and how many API calls have been
issued so far (used to index the call-outcome oracle). -/
structure SfnConfig where
  state : SfnState
  data : SfnData
  input : StartInput
  callNo : Nat
deriving Repr, DecidableEq

/-- One step of the state machine.  `oracle n` is the outcome of the n-th
API call and `respReqId n` the `requestId` field of its response body
(used by `CreateItem`'s `resultSelector`, which stores
`$.ResponseBody.requestId` as `$.result.itemId`). -/
def sfnStep (oracle : Nat → CallResult) (respReqId : Nat → String)
    (executionName : String) (c : SfnConfig) : SfnConfig :=
  match c.state with
  | .startPass =>
    ⟨.createItem, startPassParams c.input executionName, c.input, c.callNo⟩
  | .createItem =>
    let r := oracle c.callNo
    let d := match r with
      | .ok => { c.data with itemId := respReqId c.callNo }
      | .err => c.data
    ⟨taskNext createItemTask r, d, c.input, c.callNo + 1⟩
  | .updateItem =>
    ⟨taskNext updateItemTask (oracle c.callNo), c.data, c.input, c.callNo + 1⟩
  | .deleteItem =>
    ⟨taskNext deleteItemTask (oracle c.callNo), c.data, c.input, c.callNo + 1⟩
  | .reduceCount =>
    ⟨.countCheck, { c.data with remaining := c.data.remaining - 1 },
      c.input, c.callNo⟩
  | .countCheck =>
    ⟨if c.data.remaining > 0 then .createItem else .getItems, c.data,
      c.input, c.callNo⟩
  | .getItems =>
    ⟨taskNext getItemsTask (oracle c.callNo), c.data, c.input, c.callNo + 1⟩
  | .succeeded => c
  | .failed => c

/-- Count how many times the machine enters the `CreateItem` task within
the given number of steps (terminal states are absorbing). -/
def countCreateVisits (oracle : Nat → CallResult) (respReqId : Nat → String)
    (executionName : String) : Nat → SfnConfig → Nat
  | 0, _ => 0
  | n + 1, c =>
    (if c.state == .createItem then 1 else 0) +
      countCreateVisits oracle respReqId executionName n
        (sfnStep oracle respReqId executionName c)

/-- A call-outcome oracle under which every API call succeeds. -/
def allOk : Nat → CallResult := fun _ => .ok

/-- A response oracle giving every call the same response request id. -/
def constReqId : Nat → String := fun _ => "resp-req"

/-! ## Helper lemmas -/

theorem containsId_cons (a : ItemAttributes) (t : Table) (i : String) :
    containsId (a :: t) i = ((a.ItemId == i) || containsId t i) := by
  simp [containsId]

theorem containsId_filter_self (t : Table) (i : String) :
    containsId (t.filter (fun r => r.ItemId != i)) i = false := by
  induction t with
  | nil => rfl
  | cons a t ih =>
    by_cases h : a.ItemId = i
    · simpa [List.filter_cons, h] using ih
    · simp [List.filter_cons, containsId_cons, h, ih]

theorem filter_id_eq_nil_of_absent (t : Table) (i : String)
    (h : containsId t i = false) :
    t.filter (fun r => r.ItemId == i) = [] := by
  induction t with
  | nil => rfl
  | cons a t ih =>
    rw [containsId_cons] at h
    rcases Bool.or_eq_false_iff.mp h with ⟨h1, h2⟩
    simp [List.filter_cons, h1, ih h2]

/-! ## Claims -/

/-- C1: for every combination of the two boolean colour flags
(`wantsRed`, `wantsBlue`), the Create (POST) and Update (PUT) operations
classify the colour as BLACK for (false,false), BLUE for (false,true),
RED for (true,false) and PURPLE for (true,true), and the outcome is a
client error with status 400 exactly when the colour is BLACK or PURPLE,
and success otherwise.  The hypotheses ask for a well-formed call: no
failure injection, no item id on create (with the fresh id unused), and an
existing item id on update. -/
theorem c1_colour_classification
    (tn rid : String) (red blue : Bool) (method : String)
    (pid cid : Option String) (rt rr rb : Bool) (table : Table)
    (now lexp : Nat)
    (hmeth : (method = "POST" ∧ pid = none ∧ containsId table rid = false) ∨
      (method = "PUT" ∧ ∃ i, pid = some i ∧ i ≠ "" ∧ containsId table i = true))
    (out : WriteOutput)
    (hout : out = lambdaHandlerWrite (some tn) rid method
      ⟨pid, some red, some blue, none, cid, none⟩ rt rr rb table now lexp) :
    (red = false → blue = false →
      out.colourMetric = some "BLACK" ∧
      out.result = .error ⟨400, "Missing colour choice", rid⟩) ∧
    (red = false → blue = true →
      out.colourMetric = some "BLUE" ∧ ∃ r, out.result = .ok r) ∧
    (red = true → blue = false →
      out.colourMetric = some "RED" ∧ ∃ r, out.result = .ok r) ∧
    (red = true → blue = true →
      out.colourMetric = some "PURPLE" ∧
      out.result = .error ⟨400, "Invalid colour choices", rid⟩) := by
  subst hout
  rcases hmeth with ⟨hm, hp, hc⟩ | ⟨hm, i, hp, hi, hc⟩
  · subst hm; subst hp
    cases red <;> cases blue <;>
      simp [lambdaHandlerWrite, truthy, strTruthy, dbPut, mkFailWrite, hc]
  · subst hm; subst hp
    cases red <;> cases blue <;>
      simp [lambdaHandlerWrite, truthy, strTruthy, dbPut, mkFailWrite, hc, hi]

/-- Witness for C1 at a concrete input: a create with only the red flag
set classifies RED and succeeds. -/
theorem c1_colour_classification_witness :
    (lambdaHandlerWrite (some "t") "rq" "POST"
      ⟨none, some true, some false, none, none, none⟩
      false false false [] 0 30).colourMetric = some "RED" ∧
    ∃ r, (lambdaHandlerWrite (some "t") "rq" "POST"
      ⟨none, some true, some false, none, none, none⟩
      false false false [] 0 30).result = .ok r :=
  (c1_colour_classification "t" "rq" true false "POST" none none
    false false false [] 0 30 (Or.inl ⟨rfl, rfl, rfl⟩) _ rfl).2.2.1 rfl rfl

/-- C2: in the Workflow Driver, for every configuration of the machine, a
failed Create transitions directly to ReduceCount (without entering
Update), a failed Update transitions to Delete, and after Delete the
machine transitions to ReduceCount regardless of the Delete call's
outcome, so a Delete error never terminates the run. -/
theorem c2_driver_failure_routing
    (oracle : Nat → CallResult) (respReqId : Nat → String)
    (en : String) (c : SfnConfig) :
    (c.state = .createItem → oracle c.callNo = .err →
      (sfnStep oracle respReqId en c).state = .reduceCount) ∧
    (c.state = .updateItem → oracle c.callNo = .err →
      (sfnStep oracle respReqId en c).state = .deleteItem) ∧
    (c.state = .deleteItem →
      (sfnStep oracle respReqId en c).state = .reduceCount) := by
  obtain ⟨s, d, i, n⟩ := c
  refine ⟨?_, ?_, ?_⟩
  · intro hs herr
    subst hs
    simp [sfnStep, herr, taskNext, createItemTask]
  · intro hs herr
    subst hs
    simp [sfnStep, herr, taskNext, updateItemTask]
  · intro hs
    subst hs
    simp only [sfnStep]
    cases h : oracle n <;> simp [h, taskNext, deleteItemTask]

/-- Witness for C2 at concrete configurations with an always-failing call
oracle. -/
theorem c2_driver_failure_routing_witness :
    (sfnStep (fun _ => .err) constReqId "e"
      ⟨.createItem, ⟨20, 20, "", "e"⟩, ⟨none⟩, 0⟩).state = .reduceCount ∧
    (sfnStep (fun _ => .err) constReqId "e"
      ⟨.updateItem, ⟨20, 20, "", "e"⟩, ⟨none⟩, 0⟩).state = .deleteItem ∧
    (sfnStep (fun _ => .err) constReqId "e"
      ⟨.deleteItem, ⟨20, 20, "", "e"⟩, ⟨none⟩, 0⟩).state = .reduceCount :=
  ⟨(c2_driver_failure_routing (fun _ => .err) constReqId "e"
      ⟨.createItem, ⟨20, 20, "", "e"⟩, ⟨none⟩, 0⟩).1 rfl rfl,
    (c2_driver_failure_routing (fun _ => .err) constReqId "e"
      ⟨.updateItem, ⟨20, 20, "", "e"⟩, ⟨none⟩, 0⟩).2.1 rfl rfl,
    (c2_driver_failure_routing (fun _ => .err) constReqId "e"
      ⟨.deleteItem, ⟨20, 20, "", "e"⟩, ⟨none⟩, 0⟩).2.2 rfl⟩

/-- C9 (amended): the `StartPass` state replaces the whole document, so
the Run operation ignores any trigger input: the iteration count is fixed
at 20 and the correlation token is set from the machine's own execution
name, for every trigger input, document and call position. -/
theorem c9_run_input_ignored
    (oracle : Nat → CallResult) (respReqId : Nat → String)
    (en : String) (inp : StartInput) (d : SfnData) (n : Nat) :
    sfnStep oracle respReqId en ⟨.startPass, d, inp, n⟩ =
      ⟨.createItem, ⟨20, 20, "", en⟩, inp, n⟩ := rfl

set_option maxRecDepth 8000 in
/-- Counterexample to C9 as stated: a trigger input carrying an iteration
count of 5 still produces exactly 20 Create calls in a run where every
call succeeds, so the optional input does not determine the number of
loop iterations. -/
theorem c9_counterexample :
    countCreateVisits allOk constReqId "exec-1" 200
      ⟨.startPass, ⟨0, 0, "", ""⟩, ⟨some 5⟩, 0⟩ = 20 ∧ (5 : Int) ≠ 20 := by
  exact ⟨by decide, by decide⟩

/-- C10: for every successful Create call (POST), the id assigned to the
new record equals the request identifier of that call, and the response
echoes that identifier in its `requestId` field; consequently the Workflow
Driver's `CreateItem` step, which stores the response's `requestId` as
`$.result.itemId`, captures exactly the created record's id. -/
theorem c10_create_id_equals_request_id
    (tn rid : String) (params : WriteParams) (rt rr rb : Bool)
    (table : Table) (now lexp : Nat) (r : FunctionResult)
    (hok : (lambdaHandlerWrite (some tn) rid "POST" params rt rr rb
      table now lexp).result = .ok r) :
    r.itemId = rid ∧ r.requestId = rid ∧
    (∀ (oracle : Nat → CallResult) (respReqId : Nat → String)
      (en : String) (c : SfnConfig),
      c.state = .createItem → oracle c.callNo = .ok →
      respReqId c.callNo = r.requestId →
      (sfnStep oracle respReqId en c).data.itemId = r.itemId) := by
  unfold lambdaHandlerWrite at hok
  simp only [Option.isNone_some, Bool.false_eq_true, if_false, beq_self_eq_true,
    Bool.true_or, Bool.not_true, Bool.false_and, Bool.and_true,
    Bool.true_and] at hok
  repeat' split at hok
  all_goals simp [mkFailWrite] at hok
  all_goals subst hok
  all_goals refine ⟨rfl, rfl, ?_⟩
  all_goals
    intro oracle respReqId en c hs hor hresp
    obtain ⟨s, d, i, n⟩ := c
    cases hs
    simp_all [sfnStep, taskNext, createItemTask]

/-- Witness for C10 at a concrete input: a create with only the blue flag
set returns the request id as the item id, and the driver's capture step
stores it. -/
theorem c10_create_id_equals_request_id_witness :
    ((lambdaHandlerWrite (some "t") "req-7" "POST"
        ⟨none, some false, some true, none, none, none⟩
        false false false [] 0 30).result =
      .ok ⟨true, "req-7", "req-7", "req-7", "BLUE"⟩) ∧
    (sfnStep allOk (fun _ => "req-7") "e"
      ⟨.createItem, ⟨20, 20, "", "e"⟩, ⟨none⟩, 0⟩).data.itemId = "req-7" := by
  refine ⟨rfl, ?_⟩
  have h := c10_create_id_equals_request_id "t" "req-7"
    ⟨none, some false, some true, none, none, none⟩ false false false [] 0 30
    ⟨true, "req-7", "req-7", "req-7", "BLUE"⟩ rfl
  exact h.2.2 allOk (fun _ => "req-7") "e"
    ⟨.createItem, ⟨20, 20, "", "e"⟩, ⟨none⟩, 0⟩ rfl rfl rfl

/-- C3: calling Delete twice in succession on an id that is initially
present yields success on the first call and a client error with a
not-found message (status 400) on the second call. -/
theorem c3_delete_twice
    (tn rid1 rid2 i : String) (cid : Option String) (table : Table)
    (hi : i ≠ "") (hpresent : containsId table i = true) :
    (∃ r, (lambdaHandlerDelete (some tn) rid1 "DELETE" ⟨some i, cid, none⟩
      table).result = .ok r) ∧
    (lambdaHandlerDelete (some tn) rid2 "DELETE" ⟨some i, cid, none⟩
      (lambdaHandlerDelete (some tn) rid1 "DELETE" ⟨some i, cid, none⟩
        table).table).result =
      .error ⟨400, i ++ " does not exist", rid2⟩ := by
  constructor
  · simp [lambdaHandlerDelete, truthy, strTruthy, dbDelete, hi, hpresent]
  · simp [lambdaHandlerDelete, truthy, strTruthy, dbDelete, hi, hpresent,
      mkFailDelete, containsId_filter_self]

/-- Witness for C3 at a concrete input. -/
theorem c3_delete_twice_witness :
    (∃ r, (lambdaHandlerDelete (some "t") "r1" "DELETE" ⟨some "X", none, none⟩
      [⟨"X", 0, "c", "RED", 9⟩]).result = .ok r) ∧
    (lambdaHandlerDelete (some "t") "r2" "DELETE" ⟨some "X", none, none⟩
      (lambdaHandlerDelete (some "t") "r1" "DELETE" ⟨some "X", none, none⟩
        [⟨"X", 0, "c", "RED", 9⟩]).table).result =
      .error ⟨400, "X does not exist", "r2"⟩ :=
  c3_delete_twice "t" "r1" "r2" "X" none [⟨"X", 0, "c", "RED", 9⟩]
    (by decide) (by decide)

/-- C4: Update (PUT) and Delete against an id absent from the collection
yield a client error with status 400 (never 500) whose message contains
the id.  The update call is otherwise valid (exactly one colour flag set,
no failure injection). -/
theorem c4_missing_id_client_error
    (tn rid i : String) (cid : Option String) (red blue : Bool)
    (rt rr rb : Bool) (table : Table) (now lexp : Nat)
    (hi : i ≠ "") (habsent : containsId table i = false)
    (hflags : red ≠ blue) :
    (lambdaHandlerWrite (some tn) rid "PUT"
      ⟨some i, some red, some blue, none, cid, none⟩ rt rr rb
      table now lexp).result = .error ⟨400, i ++ " does not exist", rid⟩ ∧
    (lambdaHandlerDelete (some tn) rid "DELETE" ⟨some i, cid, none⟩
      table).result = .error ⟨400, i ++ " does not exist", rid⟩ ∧
    (∃ a b, i ++ " does not exist" = a ++ i ++ b) := by
  refine ⟨?_, ?_, "", " does not exist", by simp⟩
  · cases red <;> cases blue <;> simp_all [lambdaHandlerWrite, truthy,
      strTruthy, dbPut, mkFailWrite, hi, habsent]
  · simp [lambdaHandlerDelete, truthy, strTruthy, dbDelete, mkFailDelete,
      hi, habsent]

/-- Witness for C4 at a concrete input. -/
theorem c4_missing_id_client_error_witness :
    (lambdaHandlerWrite (some "t") "rq" "PUT"
      ⟨some "Z", some true, some false, none, none, none⟩ false false false
      [] 0 30).result = .error ⟨400, "Z does not exist", "rq"⟩ ∧
    (lambdaHandlerDelete (some "t") "rq" "DELETE" ⟨some "Z", none, none⟩
      []).result = .error ⟨400, "Z does not exist", "rq"⟩ ∧
    (∃ a b, "Z does not exist" = a ++ "Z" ++ b) :=
  c4_missing_id_client_error "t" "rq" "Z" none true false false false false
    [] 0 30 (by decide) (by decide) (by decide)

/-- C5: a Read scoped to a correlation id that matches no records yields a
client error "No items found" (status 400), and a Read with no filters
over a non-empty collection yields success with count equal to the total
number of records. -/
theorem c5_read_scoping
    (tn rid cid : String) (table : Table) (hcid : cid ≠ "") :
    (table.filter (fun r => r.CorrelationId == cid) = [] →
      (lambdaHandlerRead (some tn) rid ⟨none, some cid, none⟩ table).result =
        .error ⟨400, "No items found", rid⟩) ∧
    (table ≠ [] →
      ∃ r, (lambdaHandlerRead (some tn) rid ⟨none, none, none⟩
          table).result = .ok r ∧
        r.data.count = table.length) := by
  constructor
  · intro hfilter
    simp [lambdaHandlerRead, truthy, strTruthy, hcid, hfilter, mkFailRead]
  · intro hne
    cases table with
    | nil => exact absurd rfl hne
    | cons a as => simp [lambdaHandlerRead, truthy, strTruthy, mkFailRead]

/-- Witness for C5 at a concrete input. -/
theorem c5_read_scoping_witness :
    (lambdaHandlerRead (some "t") "rq" ⟨none, some "batch-1", none⟩
      [⟨"Y", 0, "c", "RED", 9⟩]).result =
      .error ⟨400, "No items found", "rq"⟩ ∧
    ∃ r, (lambdaHandlerRead (some "t") "rq" ⟨none, none, none⟩
        [⟨"Y", 0, "c", "RED", 9⟩]).result = .ok r ∧
      r.data.count = [(⟨"Y", 0, "c", "RED", 9⟩ : ItemAttributes)].length :=
  ⟨(c5_read_scoping "t" "rq" "batch-1" [⟨"Y", 0, "c", "RED", 9⟩]
      (by decide)).1 (by decide),
    (c5_read_scoping "t" "rq" "batch-1" [⟨"Y", 0, "c", "RED", 9⟩]
      (by decide)).2 (by decide)⟩

/-- Counterexample to C6 as stated: a collection state in which id X is
absent but another record is present makes `Read(id = X)` (with no
correlation filter) return success with count 0, not the claimed client
error. -/
theorem c6_counterexample :
    containsId [(⟨"Y", 0, "c", "RED", 9⟩ : ItemAttributes)] "X" = false ∧
    (lambdaHandlerRead (some "t") "req-1" ⟨some "X", none, none⟩
      [⟨"Y", 0, "c", "RED", 9⟩]).result = .ok ⟨true, "req-1", "", ⟨0, []⟩⟩ :=
  ⟨rfl, rfl⟩

/-- C6 (amended): after id X has been deleted, `Read(id = X)` with no
correlation filter yields the client error "No items found" only when the
whole collection is empty; when other records remain, it yields success
with count 0 (the id filter is applied after the fetch and an empty
filtered set is not an error). -/
theorem c6_read_after_delete
    (tn rid x : String) (table : Table)
    (hx : containsId table x = false) (hxne : x ≠ "") :
    (table = [] →
      (lambdaHandlerRead (some tn) rid ⟨some x, none, none⟩ table).result =
        .error ⟨400, "No items found", rid⟩) ∧
    (table ≠ [] →
      ∃ r, (lambdaHandlerRead (some tn) rid ⟨some x, none, none⟩
          table).result = .ok r ∧
        r.data.count = 0 ∧ r.data.items = []) := by
  constructor
  · intro he
    subst he
    simp [lambdaHandlerRead, truthy, strTruthy, mkFailRead]
  · intro hne
    have hnil := filter_id_eq_nil_of_absent table x hx
    cases table with
    | nil => exact absurd rfl hne
    | cons a as =>
      simp [lambdaHandlerRead, truthy, strTruthy, hxne, mkFailRead] at hnil ⊢
      simp [hnil.1]
      exact hnil.2

/-- Witness for the amended C6 at a concrete input. -/
theorem c6_read_after_delete_witness :
    (lambdaHandlerRead (some "t") "rq" ⟨some "X", none, none⟩ []).result =
      .error ⟨400, "No items found", "rq"⟩ ∧
    ∃ r, (lambdaHandlerRead (some "t") "rq" ⟨some "X", none, none⟩
        [⟨"Y", 0, "c", "RED", 9⟩]).result = .ok r ∧
      r.data.count = 0 ∧ r.data.items = [] :=
  ⟨(c6_read_after_delete "t" "rq" "X" [] (by decide) (by decide)).1 rfl,
    (c6_read_after_delete "t" "rq" "X" [⟨"Y", 0, "c", "RED", 9⟩]
      (by decide) (by decide)).2 (by decide)⟩

set_option maxHeartbeats 3000000 in
/-- Every error result of the write handler has status 400 or 500 and is
stamped with the originating request id. -/
theorem write_error_status (tn : Option String) (rid method : String)
    (wp : WriteParams) (rt rr rb : Bool) (table : Table) (now lexp : Nat)
    (e : ErrInfo)
    (h : (lambdaHandlerWrite tn rid method wp rt rr rb
      table now lexp).result = .error e) :
    (e.statusCode = 400 ∨ e.statusCode = 500) ∧ e.requestId = rid := by
  unfold lambdaHandlerWrite at h
  cases htn : tn.isNone <;>
  cases hmp : method == "POST" <;>
  cases hmput : method == "PUT" <;>
  cases hsup : truthy wp.surpriseMe <;>
    simp only [htn, hmp, hmput, hsup, reduceIte, Bool.not_true, Bool.not_false,
      Bool.true_and, Bool.false_and, Bool.true_or, Bool.false_or,
      Bool.and_true, Bool.and_false, Bool.or_true, Bool.or_false,
      Bool.false_eq_true, Bool.true_eq_false, if_true, if_false] at h <;>
  repeat' split at h
  all_goals
    first
      | exact Except.noConfusion h
      | (simp only [mkFailWrite, Except.error.injEq] at h
         subst h
         first
           | exact ⟨Or.inl rfl, rfl⟩
           | exact ⟨Or.inr rfl, rfl⟩)

set_option maxHeartbeats 1000000 in
/-- Every error result of the delete handler has status 400 or 500 and is
stamped with the originating request id. -/
theorem delete_error_status (tn : Option String) (rid method : String)
    (dp : DeleteParams) (table : Table) (e : ErrInfo)
    (h : (lambdaHandlerDelete tn rid method dp table).result = .error e) :
    (e.statusCode = 400 ∨ e.statusCode = 500) ∧ e.requestId = rid := by
  unfold lambdaHandlerDelete at h
  cases htn : tn.isNone <;>
  cases hmd : method == "DELETE" <;>
    simp only [htn, hmd, reduceIte, Bool.not_true, Bool.not_false,
      Bool.false_eq_true, Bool.true_eq_false, if_true, if_false] at h <;>
  repeat' split at h
  all_goals
    first
      | exact Except.noConfusion h
      | (simp only [mkFailDelete, Except.error.injEq] at h
         subst h
         first
           | exact ⟨Or.inl rfl, rfl⟩
           | exact ⟨Or.inr rfl, rfl⟩)

set_option maxHeartbeats 1000000 in
/-- Every error result of the read handler has status 400 or 500 and is
stamped with the originating request id. -/
theorem read_error_status (tn : Option String) (rid : String)
    (rp : ReadParams) (table : Table) (e : ErrInfo)
    (h : (lambdaHandlerRead tn rid rp table).result = .error e) :
    (e.statusCode = 400 ∨ e.statusCode = 500) ∧ e.requestId = rid := by
  unfold lambdaHandlerRead at h
  cases htn : tn.isNone <;>
    simp only [htn, reduceIte, Bool.not_true, Bool.not_false,
      Bool.false_eq_true, Bool.true_eq_false, if_true, if_false] at h <;>
  repeat' split at h
  all_goals
    first
      | exact Except.noConfusion h
      | (simp only [mkFailRead, Except.error.injEq] at h
         subst h
         first
           | exact ⟨Or.inl rfl, rfl⟩
           | exact ⟨Or.inr rfl, rfl⟩)

/-- C7: for every operation and every error path, the error surfaced to
the caller is one serialized string, and that string is the packing of a
numeric status code that is exactly 400 or 500, an error message, and the
identifier of the originating request — for all inputs of the write,
delete and read handlers. -/
theorem c7_error_payload_packing
    (tn : Option String) (rid method : String) (wp : WriteParams)
    (dp : DeleteParams) (rp : ReadParams) (rt rr rb : Bool)
    (table : Table) (now lexp : Nat) :
    (∀ s, callerView (lambdaHandlerWrite tn rid method wp rt rr rb
        table now lexp).result = .errorString s →
      ∃ sc msg, (sc = 400 ∨ sc = 500) ∧ s = packError ⟨sc, msg, rid⟩) ∧
    (∀ s, callerView (lambdaHandlerDelete tn rid method dp table).result =
        .errorString s →
      ∃ sc msg, (sc = 400 ∨ sc = 500) ∧ s = packError ⟨sc, msg, rid⟩) ∧
    (∀ s, callerView (lambdaHandlerRead tn rid rp table).result =
        .errorString s →
      ∃ sc msg, (sc = 400 ∨ sc = 500) ∧ s = packError ⟨sc, msg, rid⟩) := by
  refine ⟨?_, ?_, ?_⟩ <;> intro s h
  · cases hE : (lambdaHandlerWrite tn rid method wp rt rr rb
        table now lexp).result with
    | error e =>
      have hm := write_error_status tn rid method wp rt rr rb table now lexp e hE
      rw [hE] at h
      simp only [callerView, CallerView.errorString.injEq] at h
      exact ⟨e.statusCode, e.message, hm.1, by rw [← h, ← hm.2]⟩
    | ok a =>
      rw [hE] at h
      exact CallerView.noConfusion h
  · cases hE : (lambdaHandlerDelete tn rid method dp table).result with
    | error e =>
      have hm := delete_error_status tn rid method dp table e hE
      rw [hE] at h
      simp only [callerView, CallerView.errorString.injEq] at h
      exact ⟨e.statusCode, e.message, hm.1, by rw [← h, ← hm.2]⟩
    | ok a =>
      rw [hE] at h
      exact CallerView.noConfusion h
  · cases hE : (lambdaHandlerRead tn rid rp table).result with
    | error e =>
      have hm := read_error_status tn rid rp table e hE
      rw [hE] at h
      simp only [callerView, CallerView.errorString.injEq] at h
      exact ⟨e.statusCode, e.message, hm.1, by rw [← h, ← hm.2]⟩
    | ok a =>
      rw [hE] at h
      exact CallerView.noConfusion h

/-- Witness for C7 at a concrete input: a write invocation with the
environment variable missing surfaces a packed 500 error. -/
theorem c7_error_payload_packing_witness :
    ∃ sc msg, (sc = 400 ∨ sc = 500) ∧
      packError ⟨500, "Missing required env variables", "rq"⟩ =
        packError ⟨sc, msg, "rq"⟩ :=
  (c7_error_payload_packing none "rq" "POST"
    ⟨none, none, none, none, none, none⟩ ⟨none, none, none⟩
    ⟨none, none, none⟩ false false false [] 0 30).1
    (packError ⟨500, "Missing required env variables", "rq"⟩) rfl

/-- Counterexample to C8 as stated: a Read with no caller-supplied
correlation token returns a response whose correlation token is the empty
string, not the per-call request identifier, and appends no correlation
key to logs, traces or metrics. -/
theorem c8_counterexample :
    (lambdaHandlerRead (some "t") "req-1" ⟨none, none, none⟩
      [⟨"Y", 0, "c", "RED", 9⟩]).result =
      .ok ⟨true, "req-1", "", ⟨1, [⟨"Y", 0, "c", "RED", 9⟩]⟩⟩ ∧
    (lambdaHandlerRead (some "t") "req-1" ⟨none, none, none⟩
      [⟨"Y", 0, "c", "RED", 9⟩]).taggedCorrelationId = none ∧
    ("" : String) ≠ "req-1" :=
  ⟨rfl, rfl, by decide⟩

set_option maxHeartbeats 3000000 in
/-- C8 (amended): when the caller supplies no correlation token, Create,
Update (the write handler) and Delete tag their logs and their response
with a correlation token defaulted to the per-call request identifier;
Read does not default — it tags nothing and returns an empty correlation
token. -/
theorem c8_correlation_default
    (tn rid method : String) (pid : Option String) (red blue sup te : Option Bool)
    (rt rr rb : Bool) (table : Table) (now lexp : Nat) :
    ((lambdaHandlerWrite (some tn) rid method ⟨pid, red, blue, sup, none, te⟩
        rt rr rb table now lexp).loggedCorrelationId = rid ∧
      (∀ r, (lambdaHandlerWrite (some tn) rid method ⟨pid, red, blue, sup, none, te⟩
        rt rr rb table now lexp).result = .ok r → r.correlationId = rid)) ∧
    ((lambdaHandlerDelete (some tn) rid method ⟨pid, none, te⟩
        table).loggedCorrelationId = rid ∧
      (∀ r, (lambdaHandlerDelete (some tn) rid method ⟨pid, none, te⟩
        table).result = .ok r → r.correlationId = rid)) ∧
    ((lambdaHandlerRead (some tn) rid ⟨pid, none, te⟩
        table).taggedCorrelationId = none ∧
      (∀ r, (lambdaHandlerRead (some tn) rid ⟨pid, none, te⟩
        table).result = .ok r → r.correlationId = "")) := by
  refine ⟨⟨?_, ?_⟩, ⟨?_, ?_⟩, ⟨?_, ?_⟩⟩
  · unfold lambdaHandlerWrite
    cases hmp : method == "POST" <;>
    cases hmput : method == "PUT" <;>
    cases hsup : truthy sup <;>
      simp only [hmp, hmput, hsup, truthy, strTruthy, reduceIte,
        Option.isNone_some, Option.getD_none, Option.getD_some,
        Bool.not_true, Bool.not_false, Bool.true_and, Bool.false_and,
        Bool.true_or, Bool.false_or, Bool.and_true, Bool.and_false,
        Bool.or_true, Bool.or_false, Bool.false_eq_true, Bool.true_eq_false,
        if_true, if_false] <;>
    repeat' split
    all_goals rfl
  · intro r h
    unfold lambdaHandlerWrite at h
    cases hmp : method == "POST" <;>
    cases hmput : method == "PUT" <;>
    cases hsup : truthy (⟨pid, red, blue, sup, none, te⟩ : WriteParams).surpriseMe <;>
      simp only [hmp, hmput, hsup, reduceIte, Option.isNone_some,
        Bool.not_true, Bool.not_false, Bool.true_and, Bool.false_and,
        Bool.true_or, Bool.false_or, Bool.and_true, Bool.and_false,
        Bool.or_true, Bool.or_false, Bool.false_eq_true, Bool.true_eq_false,
        if_true, if_false] at h <;>
    repeat' split at h
    all_goals
      first
        | exact Except.noConfusion h
        | (simp only [Except.ok.injEq] at h
           subst h
           rfl)
  · unfold lambdaHandlerDelete
    cases hmd : method == "DELETE" <;>
      simp only [hmd, truthy, strTruthy, reduceIte, Option.isNone_some,
        Option.getD_none, Option.getD_some, Bool.not_true, Bool.not_false,
        Bool.false_eq_true, Bool.true_eq_false, if_true, if_false] <;>
    repeat' split
    all_goals rfl
  · intro r h
    unfold lambdaHandlerDelete at h
    cases hmd : method == "DELETE" <;>
      simp only [hmd, reduceIte, Option.isNone_some, Bool.not_true,
        Bool.not_false, Bool.false_eq_true, Bool.true_eq_false,
        if_true, if_false] at h <;>
    repeat' split at h
    all_goals
      first
        | exact Except.noConfusion h
        | (simp only [Except.ok.injEq] at h
           subst h
           rfl)
  · unfold lambdaHandlerRead
    simp only [truthy, strTruthy, reduceIte, Option.isNone_some,
      Option.getD_none, Option.getD_some, Bool.not_true, Bool.not_false,
      Bool.false_eq_true, Bool.true_eq_false, if_true, if_false]
    repeat' split
    all_goals rfl
  · intro r h
    unfold lambdaHandlerRead at h
    simp only [strTruthy, reduceIte, Option.isNone_some, Bool.not_true,
      Bool.not_false, Bool.false_eq_true, Bool.true_eq_false,
      if_true, if_false] at h
    repeat' split at h
    all_goals
      first
        | exact Except.noConfusion h
        | (simp only [Except.ok.injEq] at h
           subst h
           rfl)

/-- Witness for the amended C8 at a concrete input: a create call without
a correlation token logs and returns the request id as correlation
token, and a read call without one returns the empty token. -/
theorem c8_correlation_default_witness :
    (lambdaHandlerWrite (some "t") "rq" "POST"
      ⟨none, some true, some false, none, none, none⟩ false false false
      [] 0 30).loggedCorrelationId = "rq" ∧
    (⟨true, "rq", "rq", "rq", "RED"⟩ : FunctionResult).correlationId = "rq" ∧
    (lambdaHandlerRead (some "t") "rq" ⟨none, none, none⟩
      [⟨"Y", 0, "c", "RED", 9⟩]).taggedCorrelationId = none :=
  ⟨(c8_correlation_default "t" "rq" "POST" none (some true) (some false)
      none none false false false [] 0 30).1.1,
    (c8_correlation_default "t" "rq" "POST" none (some true) (some false)
      none none false false false [] 0 30).1.2
      ⟨true, "rq", "rq", "rq", "RED"⟩ rfl,
    (c8_correlation_default "t" "rq" "POST" none (some true) (some false)
      none none false false false [] 0 30).2.2.1⟩

end LambdaPowertoolsDemo
